import Mathlib

/-!
Verification of the smartrade-adk frontend glue code: the tool-call status
projector (`useCopilotToolCallRenderer`), the tool-call result card
(`CopilotToolCallCard`) and the user-identity forwarder (`CopilotProvider`).
JavaScript values are modelled by the inductive `JsValue`; React element trees
by the inductive `Node`.  All definitions are transcribed from the TypeScript
source.
-/

namespace Smartrade

mutual

/-- JavaScript values as they occur in tool-call payloads: `undefined`, `null`,
booleans, (integer) numbers, strings, objects (ordered field lists) and
arrays. -/
inductive JsValue : Type where
  | undefined : JsValue
  | null : JsValue
  | bool : Bool → JsValue
  | num : Int → JsValue
  | str : String → JsValue
  | obj : JsFields → JsValue
  | arr : JsArr → JsValue

inductive JsFields : Type where
  | nil : JsFields
  | cons : String → JsValue → JsFields → JsFields

inductive JsArr : Type where
  | nil : JsArr
  | cons : JsValue → JsArr → JsArr

end

/-- JavaScript truthiness: `undefined`, `null`, `false`, `0` and `""` are
falsy; every object and array is truthy. -/
def JsValue.truthy : JsValue → Bool
  | .undefined => false
  | .null => false
  | .bool b => b
  | .num n => n != 0
  | .str s => s != ""
  | .obj _ => true
  | .arr _ => true

/-- Property lookup on an object's field list; a missing key yields
`undefined`. -/
def fieldsLookup : JsFields → String → JsValue
  | .nil, _ => JsValue.undefined
  | .cons k v rest, key => if k = key then v else fieldsLookup rest key

/-- JavaScript member access `v[k]`: `none` models the TypeError thrown when
reading a property of `undefined` or `null`; on primitives the access yields
`undefined`. -/
def jsMember : JsValue → String → Option JsValue
  | .undefined, _ => none
  | .null, _ => none
  | .obj fs, k => some (fieldsLookup fs k)
  | _, _ => some JsValue.undefined

/-- Total variant of member access (used to state properties): objects look up
the field, everything else yields `undefined`. -/
def jsField : JsValue → String → JsValue
  | .obj fs, k => fieldsLookup fs k
  | _, _ => JsValue.undefined

/-- One hexadecimal digit (lower case). -/
def hexDigit (n : Nat) : Char :=
  if n < 10 then Char.ofNat (48 + n) else Char.ofNat (87 + n)

/-- Four-digit hexadecimal rendering used by JSON `\uXXXX` escapes. -/
def hex4 (n : Nat) : String :=
  String.mk [hexDigit (n / 4096 % 16), hexDigit (n / 256 % 16),
    hexDigit (n / 16 % 16), hexDigit (n % 16)]

/-- JSON string escaping for one character, as performed by
`JSON.stringify`. -/
def escapeJsonChar (c : Char) : String :=
  if c = '"' then "\\\""
  else if c = '\\' then "\\\\"
  else if c = '\n' then "\\n"
  else if c = '\r' then "\\r"
  else if c = '\t' then "\\t"
  else if c.toNat = 8 then "\\b"
  else if c.toNat = 12 then "\\f"
  else if c.toNat < 32 then "\\u" ++ hex4 c.toNat
  else String.singleton c

/-- A JSON string literal with its surrounding quotes. -/
def quoteJson (s : String) : String :=
  "\"" ++ String.join (s.data.map escapeJsonChar) ++ "\""

/-- Indentation produced by `JSON.stringify(v, null, 2)` at nesting depth
`depth`. -/
def spacesFor (depth : Nat) : String :=
  String.mk (List.replicate (2 * depth) ' ')

/-- Layout of a `JSON.stringify(v, null, 2)` object or array block at depth
`depth` from its already-serialized entries. -/
def renderBlock (openS closeS : String) (depth : Nat) (entries : List String) : String :=
  match entries with
  | [] => openS ++ closeS
  | _ =>
    openS ++ "\n"
      ++ String.intercalate ",\n" (entries.map (fun e => spacesFor (depth + 1) ++ e))
      ++ "\n" ++ spacesFor depth ++ closeS

mutual

/-- `JSON.stringify(v, null, 2)` at nesting depth `depth`.  `none` models the
`undefined` that `JSON.stringify` returns on an `undefined` argument;
`undefined`-valued object fields are skipped and `undefined` array elements
serialize as `null`. -/
def stringifyJson (depth : Nat) : JsValue → Option String
  | .undefined => none
  | .null => some "null"
  | .bool b => some (if b then "true" else "false")
  | .num n => some (toString n)
  | .str s => some (quoteJson s)
  | .obj fs => some (renderBlock "\x7b" "\x7d" depth (stringifyFields (depth + 1) fs))
  | .arr xs => some (renderBlock "[" "]" depth (stringifyElems (depth + 1) xs))

def stringifyFields (depth : Nat) : JsFields → List String
  | .nil => []
  | .cons k v rest =>
    match stringifyJson depth v with
    | none => stringifyFields depth rest
    | some s => (quoteJson k ++ ": " ++ s) :: stringifyFields depth rest

def stringifyElems (depth : Nat) : JsArr → List String
  | .nil => []
  | .cons v rest =>
    (match stringifyJson depth v with
     | none => "null"
     | some s => s) :: stringifyElems depth rest

end

/-- The text content of the payload panes and of the copy action:
`typeof v === "string" ? v : JSON.stringify(v, null, 2)`.  `none` is the
`undefined` obtained when `v` itself is `undefined`. -/
def displayText (v : JsValue) : Option String :=
  match v with
  | .str s => some s
  | _ => stringifyJson 0 v

/-- React element trees as rendered by the components under verification.
`seq` is sibling concatenation, `card` is an (unexpanded)
`CopilotToolCallCard` element, `button` carries its `aria-label` (empty when
the source gives none). -/
inductive Node : Type where
  | null : Node
  | text : String → Node
  | icon : String → String → Node
  | elem : String → String → Node → Node
  | button : String → String → Node → Node
  | seq : Node → Node → Node
  | card : String → JsValue → JsValue → Node

/-- Whether the tree contains a text node equal to `s`. -/
def Node.containsText (s : String) : Node → Bool
  | .null => false
  | .text t => t == s
  | .icon _ _ => false
  | .elem _ _ c => c.containsText s
  | .button _ _ c => c.containsText s
  | .seq a b => a.containsText s || b.containsText s
  | .card _ _ _ => false

/-- Whether the tree contains an icon with the given name. -/
def Node.containsIcon (ic : String) : Node → Bool
  | .null => false
  | .text _ => false
  | .icon n _ => n == ic
  | .elem _ _ c => c.containsIcon ic
  | .button _ _ c => c.containsIcon ic
  | .seq a b => a.containsIcon ic || b.containsIcon ic
  | .card _ _ _ => false

/-- Whether the tree contains a `CopilotToolCallCard` element. -/
def Node.containsCard : Node → Bool
  | .null => false
  | .text _ => false
  | .icon _ _ => false
  | .elem _ _ c => c.containsCard
  | .button _ _ c => c.containsCard
  | .seq a b => a.containsCard || b.containsCard
  | .card _ _ _ => true

/-- Whether the tree contains a button whose `aria-label` equals `l`. -/
def Node.containsButton (l : String) : Node → Bool
  | .null => false
  | .text _ => false
  | .icon _ _ => false
  | .elem _ _ c => c.containsButton l
  | .button lbl _ c => lbl == l || c.containsButton l
  | .seq a b => a.containsButton l || b.containsButton l
  | .card _ _ _ => false

/-- The class string of the root element of the tree (used to observe the
card's border). -/
def Node.topClass : Node → String
  | .elem _ cls _ => cls
  | .button _ cls _ => cls
  | _ => ""

/-! ## The tool-call result card (`copilot-tool-call-card.tsx`) -/

/-- Props of `CopilotToolCallCard`. -/
structure CardProps : Type where
  name : String
  args : JsValue
  result : JsValue

/-- The card's tab selection (`"params" | "result"`). -/
inductive Tab : Type where
  | params : Tab
  | result : Tab
deriving DecidableEq, BEq

/-- The card's local UI state: `useState(false)` for expansion and
`useState<"params" | "result">("params")` for the active tab. -/
structure CardState : Type where
  isExpanded : Bool
  activeTab : Tab

/-- The card's initial state: collapsed, params tab active. -/
def initialCardState : CardState := ⟨false, Tab.params⟩

/-- `isSuccess = result && !result.error`, read in boolean position.  The
member access is guarded by the short-circuit, so the result is `some` for
every input; `none` would model a thrown TypeError. -/
def isSuccess (result : JsValue) : Option Bool :=
  if result.truthy then (jsMember result "error").map (fun e => !e.truthy)
  else some false

/-- Payload rendering inside a `<pre>`:
`typeof v === "string" ? v : JSON.stringify(v, null, 2)`; an `undefined`
result of `JSON.stringify` renders as nothing. -/
def displayPayload (v : JsValue) : Node :=
  match displayText v with
  | some t => Node.text t
  | none => Node.null

/-- Class of the card's root `div`; the success variant carries the
`#2AAA8A` border. -/
def cardRootClass (succ : Bool) : String :=
  "tool-call-card rounded-lg border bg-white shadow-sm transition-all duration-300 "
    ++ (if succ then "border-[#2AAA8A]/30" else "border-gray-300")

/-- The card's header button: wrench and tool name on the left; status icon
(`Check` on success, `X` otherwise) and chevron on the right. -/
def cardHeader (name : String) (succ isExpanded : Bool) : Node :=
  Node.button ""
    "w-full p-3 flex items-center justify-between gap-3 hover:bg-gray-50 transition-colors rounded-lg"
    (Node.seq
      (Node.elem "div" "flex items-center gap-2 flex-1 min-w-0"
        (Node.seq (Node.icon "Wrench" "h-5 w-5 text-gray-600 shrink-0")
          (Node.elem "span" "font-medium text-gray-900 truncate" (Node.text name))))
      (Node.elem "div" "flex items-center gap-2 shrink-0"
        (Node.seq
          (if succ then Node.icon "Check" "h-4 w-4"
           else Node.icon "X" "h-4 w-4 text-gray-500")
          (if isExpanded then Node.icon "ChevronUp" "h-4 w-4 text-gray-500"
           else Node.icon "ChevronDown" "h-4 w-4 text-gray-500"))))

/-- Class of a tab button, highlighted when active. -/
def tabButtonClass (active : Bool) : String :=
  "px-3 py-1.5 text-sm font-medium rounded-md transition-colors "
    ++ (if active then "bg-gray-100 text-gray-900" else "text-gray-600 hover:text-gray-900")

/-- The 参数 / 结果 tab bar. -/
def tabBar (activeTab : Tab) : Node :=
  Node.elem "div" "flex items-center justify-between px-3 pt-3"
    (Node.elem "div" "flex gap-2"
      (Node.seq
        (Node.button "" (tabButtonClass (activeTab == Tab.params)) (Node.text "参数"))
        (Node.button "" (tabButtonClass (activeTab == Tab.result)) (Node.text "结果"))))

/-- Class of the floating copy button of each pane. -/
def copyButtonClass : String :=
  "absolute top-2 right-2 p-1.5 rounded hover:bg-gray-200 transition-colors"

/-- Class of the payload `<pre>` blocks. -/
def preClass : String :=
  "text-xs bg-gray-50 rounded p-3 pr-10 overflow-auto max-h-80 text-gray-900"

/-- The params pane: copy button plus the rendered argument payload. -/
def paramsPane (args : JsValue) : Node :=
  Node.elem "div" "relative"
    (Node.seq
      (Node.button "复制参数" copyButtonClass (Node.icon "Copy" "h-3.5 w-3.5 text-gray-500"))
      (Node.elem "pre" preClass (displayPayload args)))

/-- The result pane: for a truthy result, copy button plus the rendered result
payload; otherwise the 暂无结果 empty-state message. -/
def resultPane (result : JsValue) : Node :=
  Node.elem "div" "relative"
    (if result.truthy then
      Node.seq
        (Node.button "复制结果" copyButtonClass (Node.icon "Copy" "h-3.5 w-3.5 text-gray-500"))
        (Node.elem "pre" preClass (displayPayload result))
     else
      Node.elem "div" "text-sm text-gray-500 text-center py-4" (Node.text "暂无结果"))

/-- The card's expanded body: tab bar plus the active pane. -/
def cardBody (p : CardProps) (st : CardState) : Node :=
  Node.elem "div" "border-t border-gray-200"
    (Node.seq (tabBar st.activeTab)
      (Node.elem "div" "px-3 pb-3 mt-3"
        (if st.activeTab = Tab.params then paramsPane p.args else resultPane p.result)))

/-- The full card element tree for a given success flag. -/
def cardNode (p : CardProps) (st : CardState) (succ : Bool) : Node :=
  Node.elem "div" (cardRootClass succ)
    (Node.seq (cardHeader p.name succ st.isExpanded)
      (if st.isExpanded then cardBody p st else Node.null))

/-- Rendering `CopilotToolCallCard`: evaluate `isSuccess` (the only member
access that could throw) and build the tree.  `none` would model a throw
during render. -/
def renderCard (p : CardProps) (st : CardState) : Option Node :=
  (isSuccess p.result).map (cardNode p st)

/-- The text handed to the clipboard by `handleCopy`:
`typeof data === "string" ? data : JSON.stringify(data, null, 2)`; the
`"undefined"` branch is `writeText`'s string coercion of `undefined`. -/
def handleCopy (data : JsValue) : String :=
  match data with
  | .str s => s
  | _ =>
    match stringifyJson 0 data with
    | some s => s
    | none => "undefined"

/-- `copyToClipboard`: attempt the clipboard write (an external effect that
may fail); a failure is caught and turned into a `console.error` log entry,
never rethrown.  Returns the log lines produced. -/
def copyToClipboard (write : String → Except String Unit) (text : String) : List String :=
  match write text with
  | .ok _ => []
  | .error err => ["复制失败: " ++ err]

/-- User interactions offered by the card. -/
inductive CardAction : Type where
  | toggleExpand : CardAction
  | selectTab : Tab → CardAction
  | copy : JsValue → CardAction

/-- The card's event step: how each handler updates the UI state, and the
console logs it emits.  `write` models `navigator.clipboard.writeText`. -/
def cardStep (write : String → Except String Unit) (st : CardState) :
    CardAction → CardState × List String
  | .toggleExpand => (⟨!st.isExpanded, st.activeTab⟩, [])
  | .selectTab t => (⟨st.isExpanded, t⟩, [])
  | .copy data => (st, copyToClipboard write (handleCopy data))

/-! ## The status projector (`use-copilot-tool-call-renderer.tsx`) -/

/-- The options accepted by `useCopilotToolCallRenderer`. -/
structure Options : Type where
  description : Option String
  namePattern : Option String
  renderPendingBubble : Option (String → Node)

/-- The props CopilotKit passes to the `render` callback: one tool-invocation
event.  An absent result is `JsValue.undefined`. -/
structure RenderProps : Type where
  name : String
  args : JsValue
  status : String
  result : JsValue

/-- The assistant-message wrapper class used by every rendered branch. -/
def assistantMessageClass : String :=
  "copilotKitMessage copilotKitAssistantMessage tool-call-message"

/-- The default pending bubble: wrench icon plus the tool name. -/
def pendingBubbleDefault (name : String) : Node :=
  Node.elem "div" (assistantMessageClass ++ " tool-bubble-pending")
    (Node.elem "div" "flex items-center gap-2"
      (Node.seq (Node.icon "Wrench" "h-4 w-4 text-white shrink-0")
        (Node.elem "span" "text-sm font-medium text-white truncate" (Node.text name))))

/-- The `render` callback registered with `useRenderToolCall`: `executing`
renders the pending bubble (custom when provided), `complete` renders the
result card, every other status renders `null`. -/
def renderToolCall (opts : Options) (p : RenderProps) : Node :=
  if p.status = "executing" then
    match opts.renderPendingBubble with
    | some f => Node.elem "div" (assistantMessageClass ++ " tool-bubble-pending") (f p.name)
    | none => pendingBubbleDefault p.name
  else if p.status = "complete" then
    Node.elem "div" assistantMessageClass (Node.card p.name p.args p.result)
  else
    Node.null

/-- Projecting a stream of events for one invocation: the hook keeps no queue
and no history, each delivered event simply replaces the rendered output, so
the final output is determined by the last event alone. -/
def projectSequence (opts : Options) (events : List RenderProps) : Node :=
  events.foldl (fun _ e => renderToolCall opts e) Node.null

/-! ## The identity forwarder (`copilot-provider.tsx`) -/

/-- A Supabase auth user (only the id is read). -/
structure AuthUser : Type where
  id : String

/-- A Supabase session: `session?.user` may be absent. -/
structure Session : Type where
  user : Option AuthUser

/-- `user?.id || null`: an absent user or a falsy (empty) id is coerced to
`null`. -/
def jsIdOrNull (u : Option AuthUser) : Option String :=
  match u with
  | some user => if user.id = "" then none else some user.id
  | none => none

/-- The stored `userId` after the on-mount `fetchUser` resolves:
`setUserId(user?.id || null)` on success, `setUserId(null)` in the catch. -/
def fetchUserResult : Except String (Option AuthUser) → Option String
  | .ok u => jsIdOrNull u
  | .error _ => none

/-- The stored `userId` after an `onAuthStateChange` notification:
`setUserId(session?.user?.id || null)`. -/
def onAuthStateChange (session : Option Session) : Option String :=
  jsIdOrNull (Option.bind session (fun s => s.user))

/-- The outbound property bag handed to `CopilotKit`. -/
structure Properties : Type where
  user_id : String

/-- `properties = \x7b user_id: userId || 'anonymous' \x7d`. -/
def buildProperties (userId : Option String) : Properties :=
  ⟨match userId with
   | some id => if id = "" then "anonymous" else id
   | none => "anonymous"⟩

/-! ## Helper lemmas -/

/-- `isSuccess` never throws and computes
`result && !result.error` in boolean position. -/
theorem isSuccess_eq (result : JsValue) :
    isSuccess result = some (result.truthy && !(jsField result "error").truthy) := by
  cases result with
  | undefined => rfl
  | null => rfl
  | bool b => cases b <;> rfl
  | num n => by_cases h : n = 0 <;> simp [isSuccess, jsMember, jsField, JsValue.truthy, h]
  | str s => by_cases h : s = "" <;> simp [isSuccess, jsMember, jsField, JsValue.truthy, h]
  | obj fs => simp [isSuccess, jsMember, jsField, JsValue.truthy]
  | arr xs => simp [isSuccess, jsMember, jsField, JsValue.truthy]

theorem containsIcon_displayPayload (ic : String) (v : JsValue) :
    (displayPayload v).containsIcon ic = false := by
  cases h : displayText v <;> simp [displayPayload, h, Node.containsIcon]

theorem containsIcon_paramsPane (ic : String) (hc : ("Copy" == ic) = false) (a : JsValue) :
    (paramsPane a).containsIcon ic = false := by
  simp [paramsPane, Node.containsIcon, hc, containsIcon_displayPayload]

theorem containsIcon_resultPane (ic : String) (hc : ("Copy" == ic) = false) (r : JsValue) :
    (resultPane r).containsIcon ic = false := by
  cases h : r.truthy <;>
    simp [resultPane, h, Node.containsIcon, hc, containsIcon_displayPayload]

theorem containsIcon_tabBar (ic : String) (t : Tab) :
    (tabBar t).containsIcon ic = false := by
  simp [tabBar, Node.containsIcon]

theorem containsIcon_cardBody (ic : String) (hc : ("Copy" == ic) = false)
    (p : CardProps) (st : CardState) :
    (cardBody p st).containsIcon ic = false := by
  by_cases h : st.activeTab = Tab.params <;>
    simp [cardBody, h, Node.containsIcon, containsIcon_tabBar,
      containsIcon_paramsPane ic hc, containsIcon_resultPane ic hc]

theorem containsIcon_cardHeader_check (name : String) (succ exp : Bool) :
    (cardHeader name succ exp).containsIcon "Check" = succ := by
  cases succ <;> cases exp <;> rfl

theorem containsIcon_cardHeader_x (name : String) (succ exp : Bool) :
    (cardHeader name succ exp).containsIcon "X" = !succ := by
  cases succ <;> cases exp <;> rfl

theorem containsIcon_cardNode_check (p : CardProps) (st : CardState) (succ : Bool) :
    (cardNode p st succ).containsIcon "Check" = succ := by
  cases succ <;> cases h : st.isExpanded <;>
    simp [cardNode, h, Node.containsIcon, containsIcon_cardHeader_check,
      containsIcon_cardBody "Check" (by decide)]

theorem containsIcon_cardNode_x (p : CardProps) (st : CardState) (succ : Bool) :
    (cardNode p st succ).containsIcon "X" = !succ := by
  cases succ <;> cases h : st.isExpanded <;>
    simp [cardNode, h, Node.containsIcon, containsIcon_cardHeader_x,
      containsIcon_cardBody "X" (by decide)]

theorem topClass_cardNode (p : CardProps) (st : CardState) (succ : Bool) :
    (cardNode p st succ).topClass = cardRootClass succ := rfl

/-- An expanded card on the params tab shows the argument payload's text. -/
theorem cardNode_shows_args (p : CardProps) (succ : Bool) (t : String)
    (h : displayText p.args = some t) :
    (cardNode p ⟨true, Tab.params⟩ succ).containsText t = true := by
  simp [cardNode, cardBody, tabBar, paramsPane, displayPayload, h,
    Node.containsText, cardHeader]

/-- An expanded card on the result tab shows a truthy result payload's text. -/
theorem cardNode_shows_result (p : CardProps) (succ : Bool) (t : String)
    (hr : p.result.truthy = true) (h : displayText p.result = some t) :
    (cardNode p ⟨true, Tab.result⟩ succ).containsText t = true := by
  simp [cardNode, cardBody, tabBar, resultPane, displayPayload, hr, h,
    Node.containsText, cardHeader]

/-! ## Claims -/

/-- C1: for every tool-invocation event with status `"complete"` and a result
present (truthy), the projector renders the result-card branch; the card is
user-expandable (the header toggle flips the expand flag), its expand state is
initially collapsed, and once expanded it exposes both the argument payload
(params tab) and the result payload (result tab). -/
theorem c1_complete_renders_result_card (opts : Options) (name : String)
    (args result : JsValue) (hres : result.truthy = true) :
    renderToolCall opts ⟨name, args, "complete", result⟩
        = Node.elem "div" assistantMessageClass (Node.card name args result)
  ∧ initialCardState.isExpanded = false
  ∧ initialCardState.activeTab = Tab.params
  ∧ (∀ write : String → Except String Unit,
      ((cardStep write initialCardState CardAction.toggleExpand).fst).isExpanded = true)
  ∧ (∀ t, displayText args = some t →
      ((renderCard ⟨name, args, result⟩ ⟨true, Tab.params⟩).map
        (fun n => n.containsText t)) = some true)
  ∧ (∀ t, displayText result = some t →
      ((renderCard ⟨name, args, result⟩ ⟨true, Tab.result⟩).map
        (fun n => n.containsText t)) = some true) := by
  refine ⟨rfl, rfl, rfl, fun write => rfl, ?_, ?_⟩
  · intro t h
    have hshow := cardNode_shows_args ⟨name, args, result⟩
      (result.truthy && !(jsField result "error").truthy) t h
    simp [renderCard, isSuccess_eq, hshow]
  · intro t h
    have hshow := cardNode_shows_result ⟨name, args, result⟩
      (result.truthy && !(jsField result "error").truthy) t hres h
    simp [renderCard, isSuccess_eq, hshow]

theorem c1_witness :
    renderToolCall ⟨none, none, none⟩
        ⟨"searchStock", JsValue.obj (JsFields.cons "symbol" (JsValue.str "002594") JsFields.nil),
          "complete", JsValue.obj (JsFields.cons "price" (JsValue.str "256.8") JsFields.nil)⟩
      = Node.elem "div" assistantMessageClass
          (Node.card "searchStock"
            (JsValue.obj (JsFields.cons "symbol" (JsValue.str "002594") JsFields.nil))
            (JsValue.obj (JsFields.cons "price" (JsValue.str "256.8") JsFields.nil)))
  ∧ ((renderCard ⟨"searchStock",
        JsValue.obj (JsFields.cons "symbol" (JsValue.str "002594") JsFields.nil),
        JsValue.obj (JsFields.cons "price" (JsValue.str "256.8") JsFields.nil)⟩
        ⟨true, Tab.result⟩).map
      (fun n => n.containsText "\x7b\n  \"price\": \"256.8\"\n\x7d")) = some true := by
  have h := c1_complete_renders_result_card ⟨none, none, none⟩ "searchStock"
      (JsValue.obj (JsFields.cons "symbol" (JsValue.str "002594") JsFields.nil))
      (JsValue.obj (JsFields.cons "price" (JsValue.str "256.8") JsFields.nil)) rfl
  exact ⟨h.1, h.2.2.2.2.2 _ rfl⟩

/-- C2: for a `"complete"` event with an absent (`undefined`) result, the
complete branch still renders without throwing (`renderCard` is `some` for
every card state), and the result pane shows the 暂无结果 empty-state message
instead of any result-payload block (no 复制结果 copy button exists in the
tree). -/
theorem c2_complete_without_result_empty_state (opts : Options) (name : String)
    (args : JsValue) (st : CardState) :
    renderToolCall opts ⟨name, args, "complete", JsValue.undefined⟩
        = Node.elem "div" assistantMessageClass (Node.card name args JsValue.undefined)
  ∧ (∃ n, renderCard ⟨name, args, JsValue.undefined⟩ st = some n)
  ∧ ((renderCard ⟨name, args, JsValue.undefined⟩ ⟨true, Tab.result⟩).map
      (fun n => n.containsText "暂无结果")) = some true
  ∧ ((renderCard ⟨name, args, JsValue.undefined⟩ ⟨true, Tab.result⟩).map
      (fun n => n.containsButton "复制结果")) = some false := by
  refine ⟨rfl, ⟨cardNode ⟨name, args, JsValue.undefined⟩ st false, rfl⟩, ?_, ?_⟩ <;>
    simp [renderCard, isSuccess, jsMember, JsValue.truthy, cardNode, cardBody, tabBar,
      resultPane, cardHeader, Node.containsText, Node.containsButton]

/-- C3: for every `"executing"` event the projector renders the in-progress
branch: its output is independent of the argument and result payloads (no
precondition on argument completeness, no result content), and with no custom
bubble configured it is the default pending bubble, which shows the tool name
and contains no result card. -/
theorem c3_executing_renders_pending (opts : Options) (name : String)
    (args args2 result result2 : JsValue) :
    renderToolCall opts ⟨name, args, "executing", result⟩
        = renderToolCall opts ⟨name, args2, "executing", result2⟩
  ∧ (opts.renderPendingBubble = none →
      renderToolCall opts ⟨name, args, "executing", result⟩ = pendingBubbleDefault name
      ∧ (pendingBubbleDefault name).containsText name = true
      ∧ (pendingBubbleDefault name).containsCard = false) := by
  constructor
  · cases hb : opts.renderPendingBubble <;> simp [renderToolCall, hb]
  · intro h
    refine ⟨by simp [renderToolCall, h], ?_, rfl⟩
    simp [pendingBubbleDefault, Node.containsText]

theorem c3_witness :
    renderToolCall ⟨none, none, none⟩
        ⟨"searchStock", JsValue.obj (JsFields.cons "symbol" (JsValue.str "002594") JsFields.nil),
          "executing", JsValue.undefined⟩
      = pendingBubbleDefault "searchStock"
  ∧ (pendingBubbleDefault "searchStock").containsText "searchStock" = true
  ∧ (pendingBubbleDefault "searchStock").containsCard = false := by
  have h := c3_executing_renders_pending ⟨none, none, none⟩ "searchStock"
      (JsValue.obj (JsFields.cons "symbol" (JsValue.str "002594") JsFields.nil))
      JsValue.undefined JsValue.undefined (JsValue.obj JsFields.nil)
  exact h.2 rfl

/-- C4: for every event whose status is neither `"executing"` nor
`"complete"` (including `"pending"` and arbitrary unknown strings), the
projector renders nothing: `renderToolCall`, a total function over all status
strings, returns `Node.null`. -/
theorem c4_unknown_status_renders_nothing (opts : Options) (p : RenderProps)
    (h1 : p.status ≠ "executing") (h2 : p.status ≠ "complete") :
    renderToolCall opts p = Node.null := by
  simp [renderToolCall, h1, h2]

theorem c4_witness :
    renderToolCall ⟨none, none, none⟩ ⟨"t", JsValue.undefined, "pending", JsValue.undefined⟩
        = Node.null
  ∧ renderToolCall ⟨none, none, none⟩ ⟨"t", JsValue.undefined, "mystery", JsValue.undefined⟩
        = Node.null :=
  ⟨c4_unknown_status_renders_nothing ⟨none, none, none⟩
      ⟨"t", JsValue.undefined, "pending", JsValue.undefined⟩ (by decide) (by decide),
   c4_unknown_status_renders_nothing ⟨none, none, none⟩
      ⟨"t", JsValue.undefined, "mystery", JsValue.undefined⟩ (by decide) (by decide)⟩

/-- C5: the projector's output depends on the latest event only: for any
prefix of events (in any order, with any number of `"executing"` events, or a
`"complete"` delivered early), a sequence ending in a `"complete"` event with
a non-empty result renders the result-card branch for that event, without
erroring. -/
theorem c5_latest_event_wins (opts : Options) (pre : List RenderProps)
    (e : RenderProps) (hs : e.status = "complete") (hr : e.result.truthy = true) :
    projectSequence opts (pre ++ [e])
      = Node.elem "div" assistantMessageClass (Node.card e.name e.args e.result) := by
  obtain ⟨n, a, s, r⟩ := e
  simp only at hs
  subst hs
  simp [projectSequence, List.foldl_append, renderToolCall]

theorem c5_witness :
    projectSequence ⟨none, none, none⟩
        [⟨"searchStock", JsValue.obj (JsFields.cons "symbol" (JsValue.str "002594") JsFields.nil),
            "executing", JsValue.undefined⟩,
         ⟨"searchStock", JsValue.obj (JsFields.cons "symbol" (JsValue.str "002594") JsFields.nil),
            "complete", JsValue.obj (JsFields.cons "price" (JsValue.str "256.8") JsFields.nil)⟩]
      = Node.elem "div" assistantMessageClass
          (Node.card "searchStock"
            (JsValue.obj (JsFields.cons "symbol" (JsValue.str "002594") JsFields.nil))
            (JsValue.obj (JsFields.cons "price" (JsValue.str "256.8") JsFields.nil))) :=
  c5_latest_event_wins ⟨none, none, none⟩
    [⟨"searchStock", JsValue.obj (JsFields.cons "symbol" (JsValue.str "002594") JsFields.nil),
        "executing", JsValue.undefined⟩]
    ⟨"searchStock", JsValue.obj (JsFields.cons "symbol" (JsValue.str "002594") JsFields.nil),
        "complete", JsValue.obj (JsFields.cons "price" (JsValue.str "256.8") JsFields.nil)⟩
    rfl rfl

/-- C6 counterexample: the claim "given an authenticated session with id `U`,
the forwarded identity equals `U` after the next identity-change notification"
fails at the concrete input `U = ""`: the session's id is the empty string,
yet the forwarded identity is `"anonymous"`, not `""`. -/
theorem c6_counterexample :
    (buildProperties (onAuthStateChange (some ⟨some ⟨""⟩⟩))).user_id ≠ "" := by
  decide

/-- C6 (amended): the property bag's `user_id` is always populated with a
string: `"anonymous"` when the identity fetch fails, when no user or session
exists, or when the session's id is the empty string; and equal to `U` after
an identity-change notification with a session whose id `U` is non-empty. -/
theorem c6_identity_forwarding (e : String) (U : String) (hU : U ≠ "") :
    (buildProperties (fetchUserResult (Except.error e))).user_id = "anonymous"
  ∧ (buildProperties (fetchUserResult (Except.ok none))).user_id = "anonymous"
  ∧ (buildProperties (onAuthStateChange none)).user_id = "anonymous"
  ∧ (buildProperties (onAuthStateChange (some ⟨none⟩))).user_id = "anonymous"
  ∧ (buildProperties (onAuthStateChange (some ⟨some ⟨""⟩⟩))).user_id = "anonymous"
  ∧ (buildProperties (onAuthStateChange (some ⟨some ⟨U⟩⟩))).user_id = U := by
  refine ⟨rfl, rfl, rfl, rfl, rfl, ?_⟩
  simp [buildProperties, onAuthStateChange, jsIdOrNull, hU]

theorem c6_witness :
    (buildProperties (fetchUserResult (Except.error "network down"))).user_id = "anonymous"
  ∧ (buildProperties (onAuthStateChange (some ⟨some ⟨"user-123"⟩⟩))).user_id = "user-123" := by
  have h := c6_identity_forwarding "network down" "user-123" (by decide)
  exact ⟨h.1, h.2.2.2.2.2⟩

/-- C7: the card's copy action hands the clipboard a string payload verbatim,
and for a non-string payload the pretty-printed `JSON.stringify(·, null, 2)`
serialization; in particular the object `\x7ba: 1\x7d` yields the two-space
indented text. -/
theorem c7_copy_text (s : String) (fs : JsFields) :
    handleCopy (JsValue.str s) = s
  ∧ stringifyJson 0 (JsValue.obj fs) = some (handleCopy (JsValue.obj fs))
  ∧ handleCopy (JsValue.obj (JsFields.cons "a" (JsValue.num 1) JsFields.nil))
      = "\x7b\n  \"a\": 1\n\x7d" :=
  ⟨rfl, rfl, rfl⟩

/-- C8: a clipboard-write failure during the copy action is caught and turned
into a local `console.error` log; it never propagates (the step function's
only outputs are the unchanged state and the log), and the rendered UI state
— expand flag, active tab, hence the rendered tree — is unchanged. -/
theorem c8_copy_failure_harmless (write : String → Except String Unit)
    (st : CardState) (p : CardProps) (data : JsValue) (err : String)
    (hfail : write (handleCopy data) = Except.error err) :
    (cardStep write st (CardAction.copy data)).fst = st
  ∧ (cardStep write st (CardAction.copy data)).snd = ["复制失败: " ++ err]
  ∧ renderCard p (cardStep write st (CardAction.copy data)).fst = renderCard p st := by
  refine ⟨rfl, ?_, rfl⟩
  simp [cardStep, copyToClipboard, hfail]

theorem c8_witness :
    (cardStep (fun _ => Except.error "NotAllowedError") ⟨true, Tab.result⟩
        (CardAction.copy (JsValue.str "payload"))).fst = (⟨true, Tab.result⟩ : CardState)
  ∧ (cardStep (fun _ => Except.error "NotAllowedError") ⟨true, Tab.result⟩
        (CardAction.copy (JsValue.str "payload"))).snd = ["复制失败: " ++ "NotAllowedError"] := by
  have h := c8_copy_failure_harmless (fun _ => Except.error "NotAllowedError")
      ⟨true, Tab.result⟩ ⟨"t", JsValue.undefined, JsValue.undefined⟩
      (JsValue.str "payload") "NotAllowedError" rfl
  exact ⟨h.1, h.2.1⟩

/-- C9: an authenticated session whose user id is the empty string is
forwarded as `"anonymous"`: both the on-mount fetch and the auth-change
handler coerce the falsy id to `null`, the property-bag construction replaces
any falsy stored id with `"anonymous"`, and the forwarded identity equals the
session id `U` only for non-empty `U`. -/
theorem c9_empty_id_forwards_anonymous (U : String) (hU : U ≠ "") :
    jsIdOrNull (some ⟨""⟩) = none
  ∧ onAuthStateChange (some ⟨some ⟨""⟩⟩) = none
  ∧ (buildProperties (fetchUserResult (Except.ok (some ⟨""⟩)))).user_id = "anonymous"
  ∧ (buildProperties none).user_id = "anonymous"
  ∧ (buildProperties (some "")).user_id = "anonymous"
  ∧ (buildProperties (onAuthStateChange (some ⟨some ⟨U⟩⟩))).user_id = U := by
  refine ⟨rfl, rfl, rfl, rfl, rfl, ?_⟩
  simp [buildProperties, onAuthStateChange, jsIdOrNull, hU]

theorem c9_witness :
    (buildProperties (fetchUserResult (Except.ok (some ⟨""⟩)))).user_id = "anonymous"
  ∧ (buildProperties (onAuthStateChange (some ⟨some ⟨"42"⟩⟩))).user_id = "42" := by
  have h := c9_empty_id_forwards_anonymous "42" (by decide)
  exact ⟨h.2.2.1, h.2.2.2.2.2⟩

/-- C10: in every rendered card the header carries the `Check` success icon
exactly when the result is truthy with an absent or falsy `error` field, the
`X` failure icon exactly otherwise (in particular for every absent result and
every truthy `error` field), and the root border class is the success variant
exactly under the same condition. -/
theorem c10_success_indicator_iff (p : CardProps) (st : CardState) :
    ((renderCard p st).map (fun n => n.containsIcon "Check"))
        = some (p.result.truthy && !(jsField p.result "error").truthy)
  ∧ ((renderCard p st).map (fun n => n.containsIcon "X"))
        = some (!(p.result.truthy && !(jsField p.result "error").truthy))
  ∧ ((renderCard p st).map Node.topClass)
        = some (cardRootClass (p.result.truthy && !(jsField p.result "error").truthy)) := by
  refine ⟨?_, ?_, ?_⟩ <;>
    simp [renderCard, isSuccess_eq, containsIcon_cardNode_check,
      containsIcon_cardNode_x, topClass_cardNode]

end Smartrade
